import Mathlib

/-!
Verification of the socrates-demo classroom chatbot backend.

The development shallowly embeds the two source files of the repository:

* `src/api/redis_db.py` — the `RedisDB` wrapper over the Upstash Redis REST
  API.  The remote store is modelled as an explicit state (`RedisState`):
  association lists for the string keys (`conversation:{id}`,
  `student:{id}`, `stats:{id}`) and for the Redis sets
  (`student_conversations:{id}`).  Every operation additionally returns the
  list of write commands (`WCmd`) it issues, so that expiry (`EX`/`EXPIRE`)
  and deletion behaviour can be stated.  The remote calls themselves are
  assumed to succeed (`_execute_command` returning a payload); network-level
  failures of individual commands are outside the embedding, but the
  `available = False` degraded mode is modelled faithfully.

* `src/api/index.py` — the Flask routes and the LLM-call plumbing.  The
  outbound HTTP POST in `call_qwen_api` is driven by an oracle assigning an
  outcome (timeout / request error / response) to each attempt, and the
  function records its events (`post`, `sleep`).  At the workflow level
  (`call_srl_llm` and friends) a second oracle assigns to each
  `call_qwen_api` invocation its overall outcome (a response, or a raised
  exception), and each handler records the message list and configuration
  of every outbound call it makes.
-/

namespace Socrates

/-- Message stored inside a conversation blob
(`redis_db.py add_message_to_conversation`). -/
structure Message where
  role : String
  content : String
  timestamp : String
  word_count : Nat
deriving DecidableEq, Repr

/-- Wire-format message sent to the LLM API: only `role` and `content`. -/
structure ChatMsg where
  role : String
  content : String
deriving DecidableEq, Repr

/-- Conversation blob as built by `RedisDB.create_conversation`. -/
structure Conversation where
  conversation_id : String
  student_id : String
  group_id : String
  group_name : String
  llm_type : String
  title : String
  created_at : String
  message_count : Nat
  messages : List Message
deriving DecidableEq, Repr

/-- Student group info as returned by `get_student_group` (the fields the
persistence layer reads). -/
structure GroupInfo where
  group_id : String
  group_name : String
deriving DecidableEq, Repr

/-- Stats hash stored under `stats:{student_id}`.  The Python code stores the
fields as decimal strings and re-parses them with `int`/`float` on every
update; the round trip is the identity on the canonical numerals the code
itself writes, so the fields are embedded as numbers.  `total_duration` is
accumulated from the `duration_seconds` argument (the routes always pass
`0`). -/
structure Stats where
  total_messages : Nat
  total_duration : Nat
  total_conversations : Nat
deriving DecidableEq, Repr

/-- State of the remote key-value store, split by key namespace. -/
structure RedisState where
  available : Bool
  convs : List (String × Conversation)
  sets : List (String × List String)
  students : List (String × String)
  stats : List (String × Stats)
deriving DecidableEq, Repr

/-- Write command issued against the store (the value is kept in the state;
the trace records keys and expiries). -/
inductive WCmd where
  | set (key : String) (ex : Option Nat)
  | sadd (key : String) (member : String)
  | srem (key : String) (member : String)
  | expire (key : String) (secs : Nat)
  | del (key : String)
  | hset (key : String)
deriving DecidableEq, Repr

/-- Key a write command acts on. -/
def WCmd.key : WCmd → String
  | WCmd.set k _ => k
  | WCmd.sadd k _ => k
  | WCmd.srem k _ => k
  | WCmd.expire k _ => k
  | WCmd.del k => k
  | WCmd.hset k => k

/-- True for the commands that discard stored data (`DEL`, `SREM`). -/
def WCmd.isDeletion : WCmd → Bool
  | WCmd.srem _ _ => true
  | WCmd.del _ => true
  | _ => false

/-- Store or overwrite a binding in an association list. -/
def setAssoc {α : Type} (l : List (String × α)) (k : String) (v : α) :
    List (String × α) :=
  match l with
  | [] => [(k, v)]
  | (k', v') :: t => if k' = k then (k, v) :: t else (k', v') :: setAssoc t k v

/-- Remove a binding from an association list (`DEL`). -/
def delAssoc {α : Type} (l : List (String × α)) (k : String) :
    List (String × α) :=
  l.filter (fun p => p.1 != k)

/-- Add a member to a Redis set (`SADD`): no duplicates. -/
def saddMember (l : List String) (m : String) : List String :=
  if m ∈ l then l else l ++ [m]

/-- Members of the Redis set stored under `key` (empty when absent). -/
def getSet (s : RedisState) (key : String) : List String :=
  match s.sets.lookup key with
  | some l => l
  | none => []

/-- Python `str.strip()` (whitespace trimming on both ends), written as
structural recursion over the character list. -/
def pyStrip (s : String) : String :=
  String.mk (((s.data.dropWhile Char.isWhitespace).reverse.dropWhile
    Char.isWhitespace).reverse)

/-- Maximal non-whitespace runs of a character list (accumulator holds the
current word reversed). -/
def splitWordsAux : List Char → List Char → List String
  | [], acc => if acc.isEmpty then [] else [String.mk acc.reverse]
  | ch :: rest, acc =>
    if ch.isWhitespace then
      (if acc.isEmpty then [] else [String.mk acc.reverse]) ++ splitWordsAux rest []
    else splitWordsAux rest (ch :: acc)

/-- Python `str.split()` with no arguments: whitespace-separated words,
empty runs discarded. -/
def pySplitWords (s : String) : List String := splitWordsAux s.data []

/-- Word count used by the routes: `len(text.split())`. -/
def pyWordCount (s : String) : Nat := (pySplitWords s).length

/-- Python `l[-n:]`: the last at most `n` elements. -/
def lastN {α : Type} (l : List α) (n : Nat) : List α :=
  l.drop (l.length - n)

/-- Embeds `RedisDB.save_student`: stores the JSON blob (kept opaque as a
string) under `student:{id}` with a 365 day expiry; returns `True` without
storing when Redis is unavailable. -/
def save_student (s : RedisState) (student_id payload : String) :
    RedisState × List WCmd × Bool :=
  if !s.available then (s, [], true)
  else
    ({ s with students := setAssoc s.students ("student:" ++ student_id) payload },
     [WCmd.set ("student:" ++ student_id) (some (86400*365))], true)

/-- Embeds `RedisDB.get_student` (the stored blob, kept opaque). -/
def get_student (s : RedisState) (student_id : String) : Option String :=
  if !s.available then none
  else s.students.lookup ("student:" ++ student_id)

/-- Embeds `RedisDB.create_conversation`: stores the fresh blob under
`conversation:{id}` with a 30 day expiry and, on success, adds the id to the
`student_conversations:{student_id}` index set and refreshes that set's
30 day expiry. -/
def create_conversation (s : RedisState) (conv_id student_id : String)
    (group_info : Option GroupInfo) (llm_type title now : String) :
    RedisState × List WCmd × Bool :=
  if !s.available then (s, [], true)
  else
    let conv : Conversation :=
      { conversation_id := conv_id
        student_id := student_id
        group_id := match group_info with | some g => g.group_id | none => "unknown"
        group_name := match group_info with | some g => g.group_name | none => "unknown"
        llm_type := llm_type
        title := title
        created_at := now
        message_count := 0
        messages := [] }
    let key := "conversation:" ++ conv_id
    let index_key := "student_conversations:" ++ student_id
    let s1 : RedisState := { s with convs := setAssoc s.convs key conv }
    let s2 : RedisState :=
      { s1 with sets := setAssoc s1.sets index_key (saddMember (getSet s1 index_key) conv_id) }
    (s2,
     [WCmd.set key (some (86400*30)), WCmd.sadd index_key conv_id,
      WCmd.expire index_key (86400*30)],
     true)

/-- Embeds `RedisDB.get_conversation`. -/
def get_conversation (s : RedisState) (conv_id : String) : Option Conversation :=
  if !s.available then none
  else s.convs.lookup ("conversation:" ++ conv_id)

/-- Embeds `RedisDB.add_message_to_conversation`: appends the message record,
sets `message_count` to the new length and rewrites the blob with a 30 day
expiry.  Returns `False` when the conversation is missing, `True` without
storing when Redis is unavailable. -/
def add_message_to_conversation (s : RedisState) (conv_id role content : String)
    (word_count : Nat) (now : String) : RedisState × List WCmd × Bool :=
  if !s.available then (s, [], true)
  else
    match get_conversation s conv_id with
    | none => (s, [], false)
    | some conv =>
      let msgs := conv.messages ++
        [{ role := role, content := content, timestamp := now, word_count := word_count }]
      let conv' : Conversation := { conv with messages := msgs, message_count := msgs.length }
      let key := "conversation:" ++ conv_id
      ({ s with convs := setAssoc s.convs key conv' },
       [WCmd.set key (some (86400*30))], true)

/-- Embeds `RedisDB.delete_conversation`: looks the conversation up to find
its `student_id`, removes the id from the student's index set (when the
conversation exists and its `student_id` is non-empty) and deletes the
conversation key. -/
def delete_conversation (s : RedisState) (conv_id : String) :
    RedisState × List WCmd × Bool :=
  if !s.available then (s, [], false)
  else
    let step :=
      match get_conversation s conv_id with
      | some conv =>
        if conv.student_id != "" then
          let index_key := "student_conversations:" ++ conv.student_id
          let trimmed := (getSet s index_key).filter (fun m => m != conv_id)
          ({ s with sets := setAssoc s.sets index_key trimmed },
           [WCmd.srem index_key conv_id])
        else (s, [])
      | none => (s, ([] : List WCmd))
    let key := "conversation:" ++ conv_id
    ({ step.1 with convs := delAssoc step.1.convs key },
     step.2 ++ [WCmd.del key], true)

/-- Embeds `RedisDB.add_to_student_stats`: reads the `stats:{id}` hash
(defaulting all counters to zero), adds `messages_count` to
`total_messages`, `duration_seconds` to `total_duration`, `1` to
`total_conversations`, rewrites the hash and refreshes its 365 day expiry. -/
def add_to_student_stats (s : RedisState) (student_id : String)
    (messages_count duration_seconds : Nat) : RedisState × List WCmd × Bool :=
  if !s.available then (s, [], true)
  else
    let key := "stats:" ++ student_id
    let st : Stats :=
      match s.stats.lookup key with
      | some st => st
      | none => { total_messages := 0, total_duration := 0, total_conversations := 0 }
    let st' : Stats :=
      { total_messages := st.total_messages + messages_count
        total_duration := st.total_duration + duration_seconds
        total_conversations := st.total_conversations + 1 }
    ({ s with stats := setAssoc s.stats key st' },
     [WCmd.hset key, WCmd.expire key (86400*365)], true)

/-- Embeds `RedisDB.get_all_conversations`. -/
def get_all_conversations (s : RedisState) : List Conversation :=
  if !s.available then []
  else s.convs.map (fun p => p.2)

/-- Embeds the Flask route `DELETE /api/sessions/<session_id>`
(`index.py delete_session`): 503 when Redis is unavailable, 404 when the
conversation is missing; otherwise it deletes the `conversation:{id}` key
directly via `_delete` (it does not touch the student's index set) and
returns 200.  The `Nat` component is the HTTP status. -/
def delete_session (s : RedisState) (session_id : String) :
    RedisState × List WCmd × Nat :=
  if !s.available then (s, [], 503)
  else
    match get_conversation s session_id with
    | none => (s, [], 404)
    | some _ =>
      let key := "conversation:" ++ session_id
      ({ s with convs := delAssoc s.convs key }, [WCmd.del key], 200)

/-- Response of the LLM API as the code consumes it: the list of choices,
each reduced to its `message.content` string (an empty list covers both a
missing and an empty `choices` field; the code treats an out-of-range index
the same as a raised exception wherever it catches one). -/
structure ApiResponse where
  choices : List String
deriving DecidableEq, Repr

/-- Outcome of one network attempt inside `call_qwen_api`:
`requests.post` times out, raises another `RequestException`, or returns a
parsed JSON body. -/
inductive AttemptResult where
  | timeout
  | requestError
  | ok (r : ApiResponse)
deriving DecidableEq, Repr

/-- Observable event of `call_qwen_api`: an outbound HTTP POST for the given
0-based attempt number, or a `time.sleep` for the given number of seconds. -/
inductive QwenEvent where
  | post (attempt : Nat)
  | sleep (secs : Nat)
deriving DecidableEq, Repr

/-- How `call_qwen_api` terminates: a returned response, a re-raised
`Timeout`, a re-raised `RequestException`, or the degenerate
`raise last_error` with `last_error = None` (reachable only when
`max_retries = 0`, where the loop body never runs). -/
inductive QwenOutcome where
  | success (r : ApiResponse)
  | raisedTimeout
  | raisedRequestError
  | raisedNone
deriving DecidableEq, Repr

/-- Loop body of `call_qwen_api` (`for attempt in range(max_retries)`),
structurally recursing on the number of remaining iterations: on a timeout
with at least one iteration left it sleeps `2 ** attempt` seconds and
retries; on the last timed-out iteration it re-raises; any other
`RequestException` is re-raised at once; a response is returned at once. -/
def callQwenApiGo (oracle : Nat → AttemptResult) : Nat → Nat → List QwenEvent × QwenOutcome
  | _, 0 => ([], QwenOutcome.raisedNone)
  | attempt, r + 1 =>
    match oracle attempt with
    | AttemptResult.ok resp => ([QwenEvent.post attempt], QwenOutcome.success resp)
    | AttemptResult.requestError =>
      ([QwenEvent.post attempt], QwenOutcome.raisedRequestError)
    | AttemptResult.timeout =>
      if 0 < r then
        let rest := callQwenApiGo oracle (attempt + 1) r
        (QwenEvent.post attempt :: QwenEvent.sleep (2 ^ attempt) :: rest.1, rest.2)
      else ([QwenEvent.post attempt], QwenOutcome.raisedTimeout)

/-- Embeds `index.py call_qwen_api`: the events it performs and how it
terminates, when the `i`-th attempt's network outcome is `oracle i`. -/
def call_qwen_api (oracle : Nat → AttemptResult) (max_retries : Nat) :
    List QwenEvent × QwenOutcome :=
  callQwenApiGo oracle 0 max_retries

/-- Number of outbound HTTP POSTs in an event trace. -/
def postCount : List QwenEvent → Nat
  | [] => 0
  | QwenEvent.post _ :: t => postCount t + 1
  | QwenEvent.sleep _ :: t => postCount t

/-- Event trace of `k` timed-out attempts each followed by its backoff
sleep: `post 0, sleep 1, post 1, sleep 2, …`. -/
def timeoutEvts : Nat → List QwenEvent
  | 0 => []
  | k + 1 => timeoutEvts k ++ [QwenEvent.post k, QwenEvent.sleep (2 ^ k)]

/-- Outcome of one whole `call_qwen_api` invocation as seen by the workflow
handlers: a response, or a raised exception (of any kind). -/
inductive ApiOutcome where
  | ok (r : ApiResponse)
  | exn
deriving DecidableEq, Repr

/-- Record of one outbound LLM call made by a handler: the message list and
the `max_tokens` / `timeout` configuration passed to `call_qwen_api`. -/
structure LlmCall where
  msgs : List ChatMsg
  max_tokens : Nat
  timeout : Nat
deriving DecidableEq, Repr

/-- Agent call configuration (`AGENT_CONFIG` in `index.py`). -/
structure AgentCfg where
  max_tokens : Nat
  timeout : Nat
deriving DecidableEq, Repr

/-- Entry `short_instruction` of `AGENT_CONFIG`. -/
def AGENT_CONFIG_short_instruction : AgentCfg := { max_tokens := 300, timeout := 30 }

/-- Entry `medium_instruction` of `AGENT_CONFIG`. -/
def AGENT_CONFIG_medium_instruction : AgentCfg := { max_tokens := 600, timeout := 30 }

/-- Entry `full_response` of `AGENT_CONFIG`. -/
def AGENT_CONFIG_full_response : AgentCfg := { max_tokens := 2000, timeout := 60 }

/-- System prompt of the SRL instruction agent (`srl_agent_prompt`). -/
def srlAgentPromptContent : String :=
  "你是一个自我调节学习(SRL)指导专家。\n\n请分析学生的问题,并提供简短的SRL指导建议(2-3句话),帮助学生:\n- 设定明确的学习目标\n- 监控学习进度\n- 反思学习策略\n- 提供元认知支持\n\n只需要返回SRL指导建议,不要直接回答学生的问题。"

/-- User message sent to the SRL instruction agent. -/
def srlAgentUserContent (user_message : String) : String :=
  "学生问题: " ++ user_message ++ "\n\n请给出SRL指导建议:"

/-- Default SRL guidance substituted when the agent call raises. -/
def srlDefaultInstruction : String :=
  "请思考你的学习目标,并在学习过程中监控自己的进度。"

/-- Final system prompt of `call_srl_llm`, carrying the SRL guidance. -/
def srlFinalSystemContent (srl_instruction : String) : String :=
  "你是一个支持自我调节学习(SRL)的AI助手。\n\n**SRL 指导建议:**\n" ++ srl_instruction ++
  "\n\n请在回答学生问题时:\n1. 自然地融入上述SRL指导建议\n2. 提供准确、有帮助的答案\n3. 鼓励学生进行自我反思和监控\n4. 帮助学生\"学会如何学习\"\n\n记住:你的回答应该既解决学生的具体问题,又促进他们的自我调节学习能力。"

/-- System prompt of the AI-ethics instruction agent (`ethics_agent_prompt`). -/
def ethicsAgentPromptContent : String :=
  "你是一个AI伦理教育专家。\n\n请分析学生的问题,并提供简短的AI伦理指导建议(2-3句话),帮助学生:\n- 识别AI技术中的潜在偏见和公平性问题\n- 理解数据隐私和安全的重要性\n- 培养对AI使用的批判性思维\n- 认识AI的社会影响和责任\n\n只需要返回AI伦理指导建议,不要直接回答学生的问题。"

/-- User message sent to the AI-ethics instruction agent. -/
def ethicsAgentUserContent (user_message : String) : String :=
  "学生问题: " ++ user_message ++ "\n\n请给出AI伦理指导建议:"

/-- Default AI-ethics guidance substituted when the agent call raises. -/
def ethicsDefaultInstruction : String :=
  "在使用AI技术时,请思考可能存在的偏见和伦理问题,并负责任地使用。"

/-- Final system prompt of `call_ai_ethics_llm`, carrying the guidance. -/
def ethicsFinalSystemContent (ethics_instruction : String) : String :=
  "你是一个注重AI伦理教育的AI助手。\n\n**AI伦理指导建议:**\n" ++ ethics_instruction ++
  "\n\n请在回答学生问题时:\n1. 自然地融入上述AI伦理指导建议\n2. 提供准确、有帮助的答案\n3. 适时讨论AI技术的伦理问题(偏见、公平性、隐私等)\n4. 鼓励学生批判性地思考AI的使用\n5. 强调负责任地使用AI工具的重要性\n6. 帮助学生理解AI的局限性和潜在风险\n\n记住:你的回答应该既解决学生的具体问题,又培养他们对AI伦理的意识和批判性思维。"

/-- System prompt of the SRL adjustment agent in `call_srl_and_ethics_llm`. -/
def srlAdjustPromptContent : String :=
  "你是一个自我调节学习(SRL)指导专家。\n\n你将收到一个AI伦理方面的指导建议。请基于SRL原则对这个指导进行调整和扩展,使其:\n- 鼓励学生设定学习目标\n- 引导学生监控和评估自己的理解\n- 促进学生的元认知思考\n- 帮助学生反思学习策略\n\n请保留原有的AI伦理内容,但用SRL的视角进行重新表述和扩展(3-4句话)。"

/-- User message sent to the SRL adjustment agent. -/
def srlAdjustUserContent (user_message ethics_instruction : String) : String :=
  "学生的原始问题: " ++ user_message ++ "\n\nAI伦理指导建议:\n" ++ ethics_instruction ++
  "\n\n请基于SRL原则调整和扩展这个指导:"

/-- Fallback guidance in `call_srl_and_ethics_llm` when the SRL adjustment
call raises: the ethics guidance with a fixed suffix. -/
def srlAdjustFallback (ethics_instruction : String) : String :=
  ethics_instruction ++ " 请在学习过程中监控自己的理解,并反思你的学习策略。"

/-- Final system prompt of `call_srl_and_ethics_llm`. -/
def srlEthicsFinalSystemContent (final_instruction : String) : String :=
  "你是一个同时支持自我调节学习(SRL)和AI伦理教育的AI助手。\n\n**整合指导建议(SRL + AI Ethics):**\n" ++ final_instruction ++
  "\n\n请在回答学生问题时:\n1. 自然地融入上述整合指导建议\n2. 提供准确、有帮助的答案\n3. **SRL方面**: 鼓励学生设定学习目标、监控进度、反思策略、提供元认知支持\n4. **AI伦理方面**: 讨论AI的伦理问题(偏见、公平性、隐私)、培养批判性思维、强调负责任使用\n5. 平衡这两个方面,帮助学生成为负责任的、自主的学习者\n\n记住:你的回答应该既解决学生的具体问题,又同时促进他们的自我调节学习能力和AI伦理意识。"

/-- Guidance extraction from an agent call: `choices[0].message.content`
stripped; both a raised call and an index error on an empty `choices` list
are caught by the surrounding `except`, which substitutes `dflt`. -/
def instructionFrom (o : ApiOutcome) (dflt : String) : String :=
  match o with
  | ApiOutcome.ok r =>
    match r.choices with
    | c :: _ => pyStrip c
    | [] => dflt
  | ApiOutcome.exn => dflt

/-- Latest user question as the handlers extract it:
`messages[-1].content` when the list is non-empty and its last role is
`user`, otherwise the empty string. -/
def latestUserMessage (messages : List ChatMsg) : String :=
  match messages.getLast? with
  | some m => if m.role = "user" then m.content else ""
  | none => ""

/-- History portion of a handler's final message list: `messages[:-1]` when
the incoming list has more than one element, else nothing. -/
def historyPart (messages : List ChatMsg) : List ChatMsg :=
  if messages.length > 1 then messages.dropLast else []

/-- Embeds `index.py call_srl_llm`: the two-step SRL workflow.  `oracle i`
is the outcome of the `i`-th `call_qwen_api` invocation this handler makes;
the first component records every outbound call, the second is the
handler's own outcome (return value or raised exception). -/
def call_srl_llm (oracle : Nat → ApiOutcome) (messages : List ChatMsg) :
    List LlmCall × ApiOutcome :=
  let user_message := latestUserMessage messages
  if user_message = "" then
    ([{ msgs := messages
        max_tokens := AGENT_CONFIG_full_response.max_tokens
        timeout := AGENT_CONFIG_full_response.timeout }], oracle 0)
  else
    let srl_agent_messages : List ChatMsg :=
      [{ role := "system", content := srlAgentPromptContent },
       { role := "user", content := srlAgentUserContent user_message }]
    let srl_instruction := instructionFrom (oracle 0) srlDefaultInstruction
    let final_messages : List ChatMsg :=
      { role := "system", content := srlFinalSystemContent srl_instruction } ::
        (historyPart messages ++ [{ role := "user", content := user_message }])
    ([{ msgs := srl_agent_messages
        max_tokens := AGENT_CONFIG_short_instruction.max_tokens
        timeout := AGENT_CONFIG_short_instruction.timeout },
      { msgs := final_messages
        max_tokens := AGENT_CONFIG_full_response.max_tokens
        timeout := AGENT_CONFIG_full_response.timeout }], oracle 1)

/-- Embeds `index.py call_ai_ethics_llm`: the two-step AI-ethics workflow,
structured exactly like `call_srl_llm` with the ethics prompts. -/
def call_ai_ethics_llm (oracle : Nat → ApiOutcome) (messages : List ChatMsg) :
    List LlmCall × ApiOutcome :=
  let user_message := latestUserMessage messages
  if user_message = "" then
    ([{ msgs := messages
        max_tokens := AGENT_CONFIG_full_response.max_tokens
        timeout := AGENT_CONFIG_full_response.timeout }], oracle 0)
  else
    let ethics_agent_messages : List ChatMsg :=
      [{ role := "system", content := ethicsAgentPromptContent },
       { role := "user", content := ethicsAgentUserContent user_message }]
    let ethics_instruction := instructionFrom (oracle 0) ethicsDefaultInstruction
    let final_messages : List ChatMsg :=
      { role := "system", content := ethicsFinalSystemContent ethics_instruction } ::
        (historyPart messages ++ [{ role := "user", content := user_message }])
    ([{ msgs := ethics_agent_messages
        max_tokens := AGENT_CONFIG_short_instruction.max_tokens
        timeout := AGENT_CONFIG_short_instruction.timeout },
      { msgs := final_messages
        max_tokens := AGENT_CONFIG_full_response.max_tokens
        timeout := AGENT_CONFIG_full_response.timeout }], oracle 1)

/-- Embeds `index.py call_srl_and_ethics_llm`: the three-step cascade —
ethics agent, SRL adjustment agent, final call. -/
def call_srl_and_ethics_llm (oracle : Nat → ApiOutcome) (messages : List ChatMsg) :
    List LlmCall × ApiOutcome :=
  let user_message := latestUserMessage messages
  if user_message = "" then
    ([{ msgs := messages
        max_tokens := AGENT_CONFIG_full_response.max_tokens
        timeout := AGENT_CONFIG_full_response.timeout }], oracle 0)
  else
    let ethics_agent_messages : List ChatMsg :=
      [{ role := "system", content := ethicsAgentPromptContent },
       { role := "user", content := ethicsAgentUserContent user_message }]
    let ethics_instruction := instructionFrom (oracle 0) ethicsDefaultInstruction
    let srl_agent_messages : List ChatMsg :=
      [{ role := "system", content := srlAdjustPromptContent },
       { role := "user", content := srlAdjustUserContent user_message ethics_instruction }]
    let final_instruction :=
      instructionFrom (oracle 1) (srlAdjustFallback ethics_instruction)
    let final_messages : List ChatMsg :=
      { role := "system", content := srlEthicsFinalSystemContent final_instruction } ::
        (historyPart messages ++ [{ role := "user", content := user_message }])
    ([{ msgs := ethics_agent_messages
        max_tokens := AGENT_CONFIG_short_instruction.max_tokens
        timeout := AGENT_CONFIG_short_instruction.timeout },
      { msgs := srl_agent_messages
        max_tokens := AGENT_CONFIG_medium_instruction.max_tokens
        timeout := AGENT_CONFIG_medium_instruction.timeout },
      { msgs := final_messages
        max_tokens := AGENT_CONFIG_full_response.max_tokens
        timeout := AGENT_CONFIG_full_response.timeout }], oracle 2)

/-- Embeds `index.py call_original_llm`: one call, no added prompt. -/
def call_original_llm (oracle : Nat → ApiOutcome) (messages : List ChatMsg) :
    List LlmCall × ApiOutcome :=
  ([{ msgs := messages
      max_tokens := AGENT_CONFIG_full_response.max_tokens
      timeout := AGENT_CONFIG_full_response.timeout }], oracle 0)

/-- Embeds `index.py route_llm_call`: dictionary dispatch on `llm_type`,
defaulting to `call_original_llm` for unknown types. -/
def route_llm_call (oracle : Nat → ApiOutcome) (llm_type : String)
    (messages : List ChatMsg) : List LlmCall × ApiOutcome :=
  if llm_type = "srl" then call_srl_llm oracle messages
  else if llm_type = "ai_ethics" then call_ai_ethics_llm oracle messages
  else if llm_type = "srl_and_ethics" then call_srl_and_ethics_llm oracle messages
  else call_original_llm oracle messages

/-- Incoming `/chat` request as the handler reads it (`request.is_json`,
then `data.get(...)` with the handler's defaults). -/
structure ChatRequest where
  is_json : Bool
  message : String
  session_id : Option String
  student_id : String
  llm_type : String
deriving DecidableEq, Repr

/-- HTTP result of the `/chat` handler: status code plus the body fields the
claims speak about (`reply`, `success`, `session_id`; `none` when the body
does not carry the field). -/
structure ChatHttpResult where
  status : Nat
  reply : Option String
  success : Bool
  session_id : Option String
deriving DecidableEq, Repr

/-- Message-list construction of the `/chat` handler (index.py lines
1071-1082): at most the last 20 stored messages, reduced to role/content,
with the current user message appended when the list is empty or its last
role is not `user`. -/
def buildChatMessages (conversation : Option Conversation) (user_message : String) :
    List ChatMsg :=
  let messages : List ChatMsg :=
    match conversation with
    | some conv => (lastN conv.messages 20).map (fun m => ChatMsg.mk m.role m.content)
    | none => []
  match messages.getLast? with
  | none => messages ++ [ChatMsg.mk "user" user_message]
  | some m =>
    if m.role != "user" then messages ++ [ChatMsg.mk "user" user_message]
    else messages

/-- Message-list construction of the `/chat/stream` generator (index.py
lines 184-195), written out separately because it is a second code site;
its body is line-for-line the same as the one in `/chat`. -/
def streamBuildMessages (conversation : Option Conversation) (user_message : String) :
    List ChatMsg :=
  let messages : List ChatMsg :=
    match conversation with
    | some conv => (lastN conv.messages 20).map (fun m => ChatMsg.mk m.role m.content)
    | none => []
  match messages.getLast? with
  | none => messages ++ [ChatMsg.mk "user" user_message]
  | some m =>
    if m.role != "user" then messages ++ [ChatMsg.mk "user" user_message]
    else messages

/-- Conversation title built for a fresh session:
`user_message[:30] + ('...' if len(user_message) > 30 else '')`. -/
def sessionTitle (user_message : String) : String :=
  user_message.take 30 ++ (if user_message.length > 30 then "..." else "")

/-- Session resolution step of `/chat`: reuse the client's `session_id` or,
when absent, mint `new_session` and create the conversation (with the
student's group when `group_of` knows it, else the unknown-group default).
Returns the session id and the state after the optional creation. -/
def chatSession (s : RedisState) (req : ChatRequest)
    (group_of : String → Option GroupInfo) (user_message new_session now : String) :
    String × RedisState :=
  match req.session_id with
  | some sid => (sid, s)
  | none =>
    let group_info : GroupInfo :=
      match group_of req.student_id with
      | some g => g
      | none => { group_id := "unknown", group_name := "unknown" }
    (new_session,
     (create_conversation s new_session req.student_id (some group_info)
        req.llm_type (sessionTitle user_message) now).1)

/-- Core of the `/chat` route after its three input validations: build the
history window, call `route_llm_call`, and map the outcome — a raise to
500 (the outer `except`), a missing/empty `choices` list or an empty
stripped reply to 502, and otherwise persist the two messages, bump the
stats and answer 200. -/
def chatAfterValidation (s1 : RedisState) (req : ChatRequest)
    (oracle : Nat → ApiOutcome) (session_id user_message now : String) :
    RedisState × ChatHttpResult :=
  let messages := buildChatMessages (get_conversation s1 session_id) user_message
  match (route_llm_call oracle req.llm_type messages).2 with
  | ApiOutcome.exn =>
    (s1, { status := 500, reply := none, success := false, session_id := none })
  | ApiOutcome.ok resp =>
    match resp.choices with
    | [] => (s1, { status := 502, reply := none, success := false, session_id := none })
    | c :: _ =>
      let ai_reply := pyStrip c
      if ai_reply = "" then
        (s1, { status := 502, reply := none, success := false, session_id := none })
      else
        let s2 := (add_message_to_conversation s1 session_id "user" user_message
          (pyWordCount user_message) now).1
        let s3 := (add_message_to_conversation s2 session_id "assistant" ai_reply
          (pyWordCount ai_reply) now).1
        let s4 := (add_to_student_stats s3 req.student_id 2 0).1
        (s4, { status := 200, reply := some ai_reply, success := true,
               session_id := some session_id })

/-- Embeds the `/chat` route (`index.py chat`).  `api_key_ok` is the truth
of `API_KEY`; `oracle` drives the `call_qwen_api` outcomes inside
`route_llm_call` (`ApiOutcome.exn` there is caught by the route's outer
`except`, mapped to 500 — the LLM call is the raise the embedding models,
the one the code's own error handling is written for); `new_session`
stands for the generated uuid and `now` for the current timestamp. -/
def chat (s : RedisState) (req : ChatRequest) (api_key_ok : Bool)
    (group_of : String → Option GroupInfo) (oracle : Nat → ApiOutcome)
    (new_session now : String) : RedisState × ChatHttpResult :=
  if !req.is_json then
    (s, { status := 400, reply := none, success := false, session_id := none })
  else
    let user_message := pyStrip req.message
    if user_message = "" ∨ user_message.length > 2000 then
      (s, { status := 400, reply := none, success := false, session_id := none })
    else if !api_key_ok then
      (s, { status := 500, reply := none, success := false, session_id := none })
    else
      let session := chatSession s req group_of user_message new_session now
      chatAfterValidation session.2 req oracle session.1 user_message now

/-- State after `n` `/chat` requests with the same request data (a fresh
session each time, since `req.session_id = none` hands the route the same
generated id). -/
def chatN (s : RedisState) (req : ChatRequest)
    (group_of : String → Option GroupInfo) (oracle : Nat → ApiOutcome)
    (new_session now : String) : Nat → RedisState
  | 0 => s
  | n + 1 => (chat (chatN s req group_of oracle new_session now n) req true
      group_of oracle new_session now).1

/-- Stats hash stored for a student, as the claims read it. -/
def statsOf (s : RedisState) (student_id : String) : Option Stats :=
  s.stats.lookup ("stats:" ++ student_id)

/-- Concrete store used by the counterexamples: one conversation `c1` owned
by student `s1`, correctly indexed. -/
def sampleConv : Conversation :=
  { conversation_id := "c1", student_id := "s1", group_id := "g1",
    group_name := "Group 1", llm_type := "original", title := "hello",
    created_at := "2025-01-01T00:00:00+00:00", message_count := 0, messages := [] }

/-- Concrete store used by the counterexamples. -/
def sampleState : RedisState :=
  { available := true
    convs := [("conversation:c1", sampleConv)]
    sets := [("student_conversations:s1", ["c1"])]
    students := []
    stats := [] }

/-- Empty store with Redis reachable, used by witnesses. -/
def onState : RedisState :=
  { available := true, convs := [], sets := [], students := [], stats := [] }

/-- Empty store with Redis unreachable (`available = False`). -/
def offState : RedisState :=
  { available := false, convs := [], sets := [], students := [], stats := [] }

/-- Concrete well-formed chat request used by witnesses. -/
def reqW : ChatRequest :=
  { is_json := true, message := "hi", session_id := none,
    student_id := "s1", llm_type := "original" }

/-- Outcome of the LLM dispatch observed by a `/chat` request that passed
its input validations. -/
def chatRouteOutcome (s : RedisState) (req : ChatRequest)
    (group_of : String → Option GroupInfo) (oracle : Nat → ApiOutcome)
    (ns now : String) : ApiOutcome :=
  (route_llm_call oracle req.llm_type
    (buildChatMessages
      (get_conversation (chatSession s req group_of (pyStrip req.message) ns now).2
        (chatSession s req group_of (pyStrip req.message) ns now).1)
      (pyStrip req.message))).2

/-- Conversation blob after one message append, as
`add_message_to_conversation` rewrites it. -/
def appendedConv (conv : Conversation) (role content now : String) (wc : Nat) :
    Conversation :=
  { conv with
      messages := conv.messages ++
        [{ role := role, content := content, timestamp := now, word_count := wc }],
      message_count := conv.messages.length + 1 }

/-! ### Helper lemmas about the retry loop -/

theorem postCount_go_le (oracle : Nat → AttemptResult) :
    ∀ r a, postCount (callQwenApiGo oracle a r).1 ≤ r := by
  intro r
  induction r with
  | zero => intro a; simp [callQwenApiGo, postCount]
  | succ r ih =>
    intro a
    unfold callQwenApiGo
    cases h : oracle a with
    | ok resp => simp [postCount]
    | requestError => simp [postCount]
    | timeout =>
      by_cases hr : 0 < r
      · have := ih (a + 1)
        simp only [hr, if_true, postCount]
        omega
      · simp [hr, postCount]

theorem go_timeout_step (oracle : Nat → AttemptResult) (a r : Nat) (hr : 0 < r)
    (ht : oracle a = AttemptResult.timeout) :
    callQwenApiGo oracle a (r + 1) =
      (QwenEvent.post a :: QwenEvent.sleep (2 ^ a) :: (callQwenApiGo oracle (a + 1) r).1,
       (callQwenApiGo oracle (a + 1) r).2) := by
  conv_lhs => rw [callQwenApiGo]
  simp only [ht, hr, if_true]

theorem go_last_timeout (oracle : Nat → AttemptResult) (a : Nat)
    (ht : oracle a = AttemptResult.timeout) :
    callQwenApiGo oracle a 1 = ([QwenEvent.post a], QwenOutcome.raisedTimeout) := by
  unfold callQwenApiGo
  rw [ht]
  simp

theorem go_request_error (oracle : Nat → AttemptResult) (a r : Nat)
    (he : oracle a = AttemptResult.requestError) :
    callQwenApiGo oracle a (r + 1) =
      ([QwenEvent.post a], QwenOutcome.raisedRequestError) := by
  unfold callQwenApiGo
  rw [he]

theorem go_head_post (oracle : Nat → AttemptResult) (a r : Nat) (hr : 0 < r) :
    ∃ tl, (callQwenApiGo oracle a r).1 = QwenEvent.post a :: tl := by
  obtain ⟨r', rfl⟩ : ∃ r', r = r' + 1 := ⟨r - 1, by omega⟩
  unfold callQwenApiGo
  cases oracle a with
  | ok resp => exact ⟨[], rfl⟩
  | requestError => exact ⟨[], rfl⟩
  | timeout =>
    by_cases h : 0 < r'
    · simp only [h, if_true]
      exact ⟨_, rfl⟩
    · simp only [h, if_false]
      exact ⟨[], rfl⟩

theorem go_leading (oracle : Nat → AttemptResult) (n : Nat) :
    ∀ i, (∀ j, j < i → oracle j = AttemptResult.timeout) → i < n →
      call_qwen_api oracle n =
        (timeoutEvts i ++ (callQwenApiGo oracle i (n - i)).1,
         (callQwenApiGo oracle i (n - i)).2) := by
  intro i
  induction i with
  | zero =>
    intro _ _
    simp [call_qwen_api, timeoutEvts]
  | succ i ih =>
    intro ht hi
    have hi' : i < n := Nat.lt_of_succ_lt hi
    have h0 := ih (fun j hj => ht j (Nat.lt_succ_of_lt hj)) hi'
    have hr : n - i = (n - (i + 1)) + 1 := by omega
    have hpos : 0 < n - (i + 1) := by omega
    rw [h0, hr, go_timeout_step oracle i (n - (i + 1)) hpos (ht i (Nat.lt_succ_self i))]
    simp [timeoutEvts, List.append_assoc]

/-! ### Claim C1 -/

/-- C1: `call_qwen_api` with `max_retries = n` attempts the outbound POST at
most `n` times; while every attempt up to `i` has timed out and attempts
remain (`i + 1 < n`), the trace so far is exactly post/sleep pairs with
backoff `2 ^ j` seconds after attempt `j`, and the next event is the POST of
attempt `i + 1`; when every attempt times out, the last attempt is not
followed by a sleep and the timeout is re-raised; a non-timeout request
error on attempt `i` is re-raised immediately — the trace ends at that POST
with no backoff sleep and no further attempt. -/
theorem call_qwen_api_retry_spec (oracle : Nat → AttemptResult) (n : Nat) :
    postCount (call_qwen_api oracle n).1 ≤ n
    ∧ (∀ i, (∀ j, j ≤ i → oracle j = AttemptResult.timeout) → i + 1 < n →
        ∃ tl, (call_qwen_api oracle n).1 =
          timeoutEvts (i + 1) ++ QwenEvent.post (i + 1) :: tl)
    ∧ ((∀ j, j < n → oracle j = AttemptResult.timeout) → 0 < n →
        (call_qwen_api oracle n).2 = QwenOutcome.raisedTimeout
        ∧ (call_qwen_api oracle n).1 = timeoutEvts (n - 1) ++ [QwenEvent.post (n - 1)])
    ∧ (∀ i, (∀ j, j < i → oracle j = AttemptResult.timeout) → i < n →
        oracle i = AttemptResult.requestError →
        (call_qwen_api oracle n).2 = QwenOutcome.raisedRequestError
        ∧ (call_qwen_api oracle n).1 = timeoutEvts i ++ [QwenEvent.post i]) := by
  refine ⟨postCount_go_le oracle n 0, ?_, ?_, ?_⟩
  · intro i ht hi
    have h0 := go_leading oracle n (i + 1) (fun j hj => ht j (Nat.lt_succ_iff.mp hj)) hi
    have hpos : 0 < n - (i + 1) := by omega
    obtain ⟨tl, htl⟩ := go_head_post oracle (i + 1) (n - (i + 1)) hpos
    exact ⟨tl, by rw [h0, htl]⟩
  · intro ht hn
    have h0 := go_leading oracle n (n - 1)
      (fun j hj => ht j (by omega)) (by omega)
    have h1 : n - (n - 1) = 1 := by omega
    rw [h1, go_last_timeout oracle (n - 1) (ht (n - 1) (by omega))] at h0
    rw [h0]
    exact ⟨rfl, rfl⟩
  · intro i ht hi he
    have h0 := go_leading oracle n i ht hi
    have h1 : n - i = (n - i - 1) + 1 := by omega
    rw [h1, go_request_error oracle i (n - i - 1) he] at h0
    rw [h0]
    exact ⟨rfl, rfl⟩

/-- Witness for C1: with both attempts timing out and `max_retries = 2`, the
timeout is re-raised and the trace is post 0, sleep 1, post 1. -/
theorem call_qwen_api_retry_spec_witness :
    (call_qwen_api (fun _ => AttemptResult.timeout) 2).2 = QwenOutcome.raisedTimeout
    ∧ (call_qwen_api (fun _ => AttemptResult.timeout) 2).1 =
        timeoutEvts 1 ++ [QwenEvent.post 1] :=
  (call_qwen_api_retry_spec (fun _ => AttemptResult.timeout) 2).2.2.1
    (fun _ _ => rfl) (by decide)

/-! ### Helper lemmas about the workflow handlers -/

theorem historyPart_eq_dropLast (l : List ChatMsg) : historyPart l = l.dropLast := by
  match l with
  | [] => rfl
  | [a] => simp [historyPart]
  | a :: b :: t => simp [historyPart]

theorem latestUserMessage_eq (messages : List ChatMsg) (m : ChatMsg)
    (hlast : messages.getLast? = some m) (hrole : m.role = "user") :
    latestUserMessage messages = m.content := by
  unfold latestUserMessage
  rw [hlast]
  simp [hrole]

theorem call_srl_llm_eq (oracle : Nat → ApiOutcome) (messages : List ChatMsg)
    (m : ChatMsg) (hlast : messages.getLast? = some m) (hrole : m.role = "user")
    (hne : m.content ≠ "") :
    call_srl_llm oracle messages =
      ([{ msgs := [{ role := "system", content := srlAgentPromptContent },
                   { role := "user", content := srlAgentUserContent m.content }],
          max_tokens := 300, timeout := 30 },
        { msgs := { role := "system",
                    content := srlFinalSystemContent
                      (instructionFrom (oracle 0) srlDefaultInstruction) } ::
            (messages.dropLast ++ [{ role := "user", content := m.content }]),
          max_tokens := 2000, timeout := 60 }],
       oracle 1) := by
  have hum := latestUserMessage_eq messages m hlast hrole
  unfold call_srl_llm
  rw [hum, if_neg hne, historyPart_eq_dropLast]
  rfl

theorem call_ai_ethics_llm_eq (oracle : Nat → ApiOutcome) (messages : List ChatMsg)
    (m : ChatMsg) (hlast : messages.getLast? = some m) (hrole : m.role = "user")
    (hne : m.content ≠ "") :
    call_ai_ethics_llm oracle messages =
      ([{ msgs := [{ role := "system", content := ethicsAgentPromptContent },
                   { role := "user", content := ethicsAgentUserContent m.content }],
          max_tokens := 300, timeout := 30 },
        { msgs := { role := "system",
                    content := ethicsFinalSystemContent
                      (instructionFrom (oracle 0) ethicsDefaultInstruction) } ::
            (messages.dropLast ++ [{ role := "user", content := m.content }]),
          max_tokens := 2000, timeout := 60 }],
       oracle 1) := by
  have hum := latestUserMessage_eq messages m hlast hrole
  unfold call_ai_ethics_llm
  rw [hum, if_neg hne, historyPart_eq_dropLast]
  rfl

theorem call_srl_and_ethics_llm_eq (oracle : Nat → ApiOutcome) (messages : List ChatMsg)
    (m : ChatMsg) (hlast : messages.getLast? = some m) (hrole : m.role = "user")
    (hne : m.content ≠ "") :
    call_srl_and_ethics_llm oracle messages =
      ([{ msgs := [{ role := "system", content := ethicsAgentPromptContent },
                   { role := "user", content := ethicsAgentUserContent m.content }],
          max_tokens := 300, timeout := 30 },
        { msgs := [{ role := "system", content := srlAdjustPromptContent },
                   { role := "user", content := srlAdjustUserContent m.content
                      (instructionFrom (oracle 0) ethicsDefaultInstruction) }],
          max_tokens := 600, timeout := 30 },
        { msgs := { role := "system",
                    content := srlEthicsFinalSystemContent
                      (instructionFrom (oracle 1)
                        (srlAdjustFallback
                          (instructionFrom (oracle 0) ethicsDefaultInstruction))) } ::
            (messages.dropLast ++ [{ role := "user", content := m.content }]),
          max_tokens := 2000, timeout := 60 }],
       oracle 2) := by
  have hum := latestUserMessage_eq messages m hlast hrole
  unfold call_srl_and_ethics_llm
  rw [hum, if_neg hne, historyPart_eq_dropLast]
  rfl

/-! ### Claim C2 -/

/-- C2: for `srl` (and symmetrically `ai_ethics`) with a non-empty latest
user message, the handler makes exactly two LLM calls — first the guidance
call built from the hard-coded agent system prompt and the user message
with the `short_instruction` config (max_tokens 300, timeout 30), then the
final call whose message list is the guidance-bearing system prompt, the
prior history without its last element, and the user message, with the
`full_response` config (max_tokens 2000, timeout 60).  A raised guidance
call only substitutes the fixed default guidance (`instructionFrom` of
`exn` is the default), and the handler's outcome is always that of the
final call (`oracle 1`), so the request still succeeds. -/
theorem srl_two_step_workflow (oracle : Nat → ApiOutcome) (messages : List ChatMsg)
    (m : ChatMsg) (hlast : messages.getLast? = some m) (hrole : m.role = "user")
    (hne : m.content ≠ "") :
    (call_srl_llm oracle messages).1 =
      [{ msgs := [{ role := "system", content := srlAgentPromptContent },
                  { role := "user", content := srlAgentUserContent m.content }],
         max_tokens := AGENT_CONFIG_short_instruction.max_tokens,
         timeout := AGENT_CONFIG_short_instruction.timeout },
       { msgs := { role := "system",
                   content := srlFinalSystemContent
                     (instructionFrom (oracle 0) srlDefaultInstruction) } ::
           (messages.dropLast ++ [{ role := "user", content := m.content }]),
         max_tokens := AGENT_CONFIG_full_response.max_tokens,
         timeout := AGENT_CONFIG_full_response.timeout }]
    ∧ (call_srl_llm oracle messages).2 = oracle 1
    ∧ (oracle 0 = ApiOutcome.exn →
        instructionFrom (oracle 0) srlDefaultInstruction = srlDefaultInstruction)
    ∧ (call_ai_ethics_llm oracle messages).1 =
      [{ msgs := [{ role := "system", content := ethicsAgentPromptContent },
                  { role := "user", content := ethicsAgentUserContent m.content }],
         max_tokens := AGENT_CONFIG_short_instruction.max_tokens,
         timeout := AGENT_CONFIG_short_instruction.timeout },
       { msgs := { role := "system",
                   content := ethicsFinalSystemContent
                     (instructionFrom (oracle 0) ethicsDefaultInstruction) } ::
           (messages.dropLast ++ [{ role := "user", content := m.content }]),
         max_tokens := AGENT_CONFIG_full_response.max_tokens,
         timeout := AGENT_CONFIG_full_response.timeout }]
    ∧ (call_ai_ethics_llm oracle messages).2 = oracle 1
    ∧ (oracle 0 = ApiOutcome.exn →
        instructionFrom (oracle 0) ethicsDefaultInstruction = ethicsDefaultInstruction) := by
  have h1 := call_srl_llm_eq oracle messages m hlast hrole hne
  have h2 := call_ai_ethics_llm_eq oracle messages m hlast hrole hne
  refine ⟨by rw [h1]; rfl, by rw [h1], ?_, by rw [h2]; rfl, by rw [h2], ?_⟩
  · intro h; rw [h]; rfl
  · intro h; rw [h]; rfl

/-- Witness for C2: a one-message history whose guidance call raises still
produces the two calls with the default guidance, and returns the final
call's outcome. -/
theorem srl_two_step_workflow_witness :
    (call_srl_llm (fun _ => ApiOutcome.exn) [{ role := "user", content := "hi" }]).2
      = ApiOutcome.exn
    ∧ instructionFrom ((fun (_ : Nat) => ApiOutcome.exn) 0) srlDefaultInstruction
      = srlDefaultInstruction := by
  have h := srl_two_step_workflow (fun _ => ApiOutcome.exn)
    [{ role := "user", content := "hi" }] { role := "user", content := "hi" }
    rfl rfl (by decide)
  exact ⟨h.2.1, h.2.2.1 rfl⟩

/-! ### Claim C3 -/

/-- C3 counterexample: with `llm_type = srl_and_ethics` and a non-empty user
message, a single `/chat`-style dispatch makes three outbound LLM calls,
not one. -/
theorem route_llm_call_single_call_refuted :
    ((route_llm_call (fun _ => ApiOutcome.ok { choices := ["ok"] }) "srl_and_ethics"
        [{ role := "user", content := "hi" }]).1).length = 3
    ∧ ((route_llm_call (fun _ => ApiOutcome.ok { choices := ["ok"] }) "srl_and_ethics"
        [{ role := "user", content := "hi" }]).1).length ≠ 1 := by
  exact ⟨by decide, by decide⟩

/-- C3 amended: request handling is a straight-line dispatch on `llm_type`,
but the number of outbound LLM calls per request depends on the group:
exactly one for `original` and for any unrecognized type, two for `srl`
and for `ai_ethics`, three for `srl_and_ethics` (given a non-empty latest
user message; with no latest user message every handler makes one call). -/
theorem route_llm_call_call_counts (oracle : Nat → ApiOutcome)
    (messages : List ChatMsg) (llm_type : String) (m : ChatMsg)
    (hlast : messages.getLast? = some m) (hrole : m.role = "user")
    (hne : m.content ≠ "") :
    ((route_llm_call oracle "original" messages).1.length = 1)
    ∧ (llm_type ≠ "srl" → llm_type ≠ "ai_ethics" → llm_type ≠ "srl_and_ethics" →
        (route_llm_call oracle llm_type messages).1.length = 1)
    ∧ ((route_llm_call oracle "srl" messages).1.length = 2)
    ∧ ((route_llm_call oracle "ai_ethics" messages).1.length = 2)
    ∧ ((route_llm_call oracle "srl_and_ethics" messages).1.length = 3)
    ∧ (∀ msgs : List ChatMsg, latestUserMessage msgs = "" →
        (call_srl_llm oracle msgs).1.length = 1
        ∧ (call_ai_ethics_llm oracle msgs).1.length = 1
        ∧ (call_srl_and_ethics_llm oracle msgs).1.length = 1) := by
  refine ⟨?_, ?_, ?_, ?_, ?_, ?_⟩
  · rw [route_llm_call, if_neg (by decide), if_neg (by decide), if_neg (by decide)]
    rfl
  · intro h1 h2 h3
    rw [route_llm_call, if_neg h1, if_neg h2, if_neg h3]
    rfl
  · rw [route_llm_call, if_pos rfl,
      call_srl_llm_eq oracle messages m hlast hrole hne]
    rfl
  · rw [route_llm_call, if_neg (by decide), if_pos rfl,
      call_ai_ethics_llm_eq oracle messages m hlast hrole hne]
    rfl
  · rw [route_llm_call, if_neg (by decide), if_neg (by decide), if_pos rfl,
      call_srl_and_ethics_llm_eq oracle messages m hlast hrole hne]
    rfl
  · intro msgs hempty
    unfold call_srl_llm call_ai_ethics_llm call_srl_and_ethics_llm
    rw [hempty]
    exact ⟨rfl, rfl, rfl⟩

/-- Witness for C3 (amended): the per-type call counts at a concrete
one-message history. -/
theorem route_llm_call_call_counts_witness :
    ((route_llm_call (fun _ => ApiOutcome.exn) "original"
        [{ role := "user", content := "q" }]).1.length = 1)
    ∧ ((route_llm_call (fun _ => ApiOutcome.exn) "srl"
        [{ role := "user", content := "q" }]).1.length = 2) := by
  have h := route_llm_call_call_counts (fun _ => ApiOutcome.exn)
    [{ role := "user", content := "q" }] "unknown" { role := "user", content := "q" }
    rfl rfl (by decide)
  exact ⟨h.1, h.2.2.1⟩

/-! ### Helper lemmas about the store -/

theorem lookup_setAssoc_self {α : Type} (l : List (String × α)) (k : String) (v : α) :
    (setAssoc l k v).lookup k = some v := by
  induction l with
  | nil => simp [setAssoc, List.lookup_cons]
  | cons p t ih =>
    obtain ⟨k', v'⟩ := p
    by_cases h : k' = k
    · simp [setAssoc, h, List.lookup_cons]
    · simp [setAssoc, h, List.lookup_cons, beq_false_of_ne (Ne.symm h), ih]

theorem lookup_setAssoc_ne {α : Type} (l : List (String × α)) (k k' : String) (v : α)
    (h : k' ≠ k) : (setAssoc l k v).lookup k' = l.lookup k' := by
  induction l with
  | nil => simp [setAssoc, List.lookup_cons, beq_false_of_ne h]
  | cons p t ih =>
    obtain ⟨k0, v0⟩ := p
    by_cases h0 : k0 = k
    · subst h0
      simp [setAssoc, List.lookup_cons, beq_false_of_ne h]
    · by_cases h1 : k' = k0
      · subst h1
        simp [setAssoc, h0, List.lookup_cons]
      · simp [setAssoc, h0, List.lookup_cons, beq_false_of_ne h1, ih]

theorem lookup_delAssoc_self {α : Type} (l : List (String × α)) (k : String) :
    (delAssoc l k).lookup k = none := by
  induction l with
  | nil => simp [delAssoc]
  | cons p t ih =>
    obtain ⟨k', v'⟩ := p
    by_cases h : k' = k
    · simpa [delAssoc, h] using ih
    · simpa [delAssoc, h, List.lookup_cons, beq_false_of_ne (Ne.symm h)] using ih

theorem mem_saddMember (l : List String) (m : String) : m ∈ saddMember l m := by
  unfold saddMember
  by_cases h : m ∈ l
  · simp [h]
  · simp [h]

theorem not_mem_filter_ne_self (l : List String) (a : String) :
    a ∉ l.filter (fun m => m != a) := by
  intro h
  have := (List.mem_filter.mp h).2
  simp at this

/-! ### Claim C4 -/

/-- C4 counterexample: starting from a store where the index is exact (one
conversation `c1` of student `s1`, index `{c1}`), the HTTP
`DELETE /api/sessions/c1` route answers 200 and deletes the conversation,
yet `c1` is still a member of `student_conversations:s1`. -/
theorem delete_session_stale_index :
    (delete_session sampleState "c1").2.2 = 200
    ∧ get_conversation (delete_session sampleState "c1").1 "c1" = none
    ∧ "c1" ∈ getSet (delete_session sampleState "c1").1 "student_conversations:s1" := by
  exact ⟨by decide, by decide, by decide⟩

/-- C4 amended: `create_conversation` adds the new id to the student's index
on a successful store, and `RedisDB.delete_conversation` removes it; but the
HTTP `DELETE /api/sessions/<session_id>` route deletes only the conversation
key and leaves the index sets untouched, so the id it deleted stays in the
index. -/
theorem conversation_index_maintained (s : RedisState) (conv_id student_id : String)
    (g : Option GroupInfo) (lt title now : String) (conv : Conversation)
    (hav : s.available = true) :
    conv_id ∈ getSet (create_conversation s conv_id student_id g lt title now).1
      ("student_conversations:" ++ student_id)
    ∧ (get_conversation s conv_id = some conv → conv.student_id = student_id →
        student_id ≠ "" →
        conv_id ∉ getSet (delete_conversation s conv_id).1
          ("student_conversations:" ++ student_id))
    ∧ (get_conversation s conv_id = some conv →
        (delete_session s conv_id).1.sets = s.sets
        ∧ get_conversation (delete_session s conv_id).1 conv_id = none) := by
  refine ⟨?_, ?_, ?_⟩
  · simp [create_conversation, hav, getSet, lookup_setAssoc_self, mem_saddMember]
  · intro hc hsid hne
    have hb : (conv.student_id != "") = true := by simp [hsid, hne]
    simp [delete_conversation, hav, hc, hb, hsid, hne, getSet, lookup_setAssoc_self,
      List.mem_filter]
  · intro hc
    have hc' : List.lookup ("conversation:" ++ conv_id) s.convs = some conv := by
      simpa [get_conversation, hav] using hc
    constructor
    · simp [delete_session, hav, hc]
    · have h1 : (delete_session s conv_id).1 =
          { s with convs := delAssoc s.convs ("conversation:" ++ conv_id) } := by
        simp [delete_session, hav, hc]
      rw [h1]
      simpa [get_conversation, hav] using
        lookup_delAssoc_self s.convs ("conversation:" ++ conv_id)

/-- Witness for C4 (amended): concrete creation and deletion on the sample
store. -/
theorem conversation_index_maintained_witness :
    "c2" ∈ getSet (create_conversation sampleState "c2" "s1" none "original" "t" "now").1
      "student_conversations:s1"
    ∧ "c1" ∉ getSet (delete_conversation sampleState "c1").1 "student_conversations:s1" := by
  have h := conversation_index_maintained sampleState "c2" "s1" none "original" "t" "now"
    sampleConv rfl
  have h' := conversation_index_maintained sampleState "c1" "s1" none "original" "t" "now"
    sampleConv rfl
  exact ⟨h.1, h'.2.1 (by decide) (by decide) (by decide)⟩

/-! ### Claim C5 -/

/-- C5 counterexample: a message append rewrites the conversation blob with
the 30-day expiry but issues no command at all on the student's index key,
so the index key's expiry is not refreshed. -/
theorem add_message_no_index_expiry :
    (add_message_to_conversation sampleState "c1" "user" "hi" 1 "t").2.1
      = [WCmd.set "conversation:c1" (some (86400*30))]
    ∧ ∀ c ∈ (add_message_to_conversation sampleState "c1" "user" "hi" 1 "t").2.1,
        WCmd.key c ≠ "student_conversations:s1" := by
  exact ⟨by decide, by decide⟩

/-- C5 amended: `create_conversation` sets the 30-day expiry on both the
conversation key and the student's index key, but
`add_message_to_conversation` sets it only on the conversation key;
`save_student` and `add_to_student_stats` set the 365-day expiry on their
keys; and none of these write operations issues a deleting command. -/
theorem write_ttl_spec (s : RedisState)
    (conv_id student_id payload lt title now role content : String)
    (g : Option GroupInfo) (wc mc dur : Nat) (conv : Conversation)
    (hav : s.available = true) :
    (create_conversation s conv_id student_id g lt title now).2.1 =
      [WCmd.set ("conversation:" ++ conv_id) (some (86400*30)),
       WCmd.sadd ("student_conversations:" ++ student_id) conv_id,
       WCmd.expire ("student_conversations:" ++ student_id) (86400*30)]
    ∧ (get_conversation s conv_id = some conv →
        (add_message_to_conversation s conv_id role content wc now).2.1 =
          [WCmd.set ("conversation:" ++ conv_id) (some (86400*30))])
    ∧ (save_student s student_id payload).2.1 =
        [WCmd.set ("student:" ++ student_id) (some (86400*365))]
    ∧ (add_to_student_stats s student_id mc dur).2.1 =
        [WCmd.hset ("stats:" ++ student_id),
         WCmd.expire ("stats:" ++ student_id) (86400*365)]
    ∧ (∀ c ∈ (create_conversation s conv_id student_id g lt title now).2.1,
        c.isDeletion = false)
    ∧ (∀ c ∈ (add_message_to_conversation s conv_id role content wc now).2.1,
        c.isDeletion = false)
    ∧ (∀ c ∈ (save_student s student_id payload).2.1, c.isDeletion = false)
    ∧ (∀ c ∈ (add_to_student_stats s student_id mc dur).2.1, c.isDeletion = false) := by
  have hnav : (!s.available) = false := by rw [hav]; rfl
  refine ⟨?_, ?_, ?_, ?_, ?_, ?_, ?_, ?_⟩
  · simp [create_conversation, hnav]
  · intro hc
    simp [add_message_to_conversation, hnav, hc]
  · simp [save_student, hnav]
  · simp [add_to_student_stats, hnav]
  · simp [create_conversation, hnav, WCmd.isDeletion]
  · rcases h : get_conversation s conv_id with _ | conv0 <;>
      simp [add_message_to_conversation, hnav, h, WCmd.isDeletion]
  · simp [save_student, hnav, WCmd.isDeletion]
  · simp [add_to_student_stats, hnav, WCmd.isDeletion]

/-- Witness for C5 (amended): the concrete command traces on the sample
store. -/
theorem write_ttl_spec_witness :
    (create_conversation sampleState "c2" "s1" none "original" "t" "now").2.1 =
      [WCmd.set "conversation:c2" (some (86400*30)),
       WCmd.sadd "student_conversations:s1" "c2",
       WCmd.expire "student_conversations:s1" (86400*30)]
    ∧ (add_message_to_conversation sampleState "c1" "user" "hi" 1 "t").2.1 =
      [WCmd.set "conversation:c1" (some (86400*30))] := by
  have h := write_ttl_spec sampleState "c2" "s1" "p" "original" "t" "now" "user" "hi"
    none 1 2 0 sampleConv rfl
  have h' := write_ttl_spec sampleState "c1" "s1" "p" "original" "t" "now" "user" "hi"
    none 1 2 0 sampleConv rfl
  exact ⟨h.1, h'.2.1 (by decide)⟩

/-! ### Helper lemmas about the chat route -/

theorem create_conversation_available (s : RedisState) (cid sid : String)
    (g : Option GroupInfo) (lt title now : String) :
    (create_conversation s cid sid g lt title now).1.available = s.available := by
  unfold create_conversation
  split <;> rfl

theorem create_conversation_stats (s : RedisState) (cid sid : String)
    (g : Option GroupInfo) (lt title now : String) :
    (create_conversation s cid sid g lt title now).1.stats = s.stats := by
  unfold create_conversation
  split <;> rfl

theorem add_message_available (s : RedisState) (cid role content : String)
    (wc : Nat) (now : String) :
    (add_message_to_conversation s cid role content wc now).1.available = s.available := by
  unfold add_message_to_conversation
  split
  · rfl
  · split <;> rfl

theorem add_message_stats (s : RedisState) (cid role content : String)
    (wc : Nat) (now : String) :
    (add_message_to_conversation s cid role content wc now).1.stats = s.stats := by
  unfold add_message_to_conversation
  split
  · rfl
  · split <;> rfl

theorem stats_op_available (s : RedisState) (sid : String) (mc dur : Nat) :
    (add_to_student_stats s sid mc dur).1.available = s.available := by
  unfold add_to_student_stats
  split <;> rfl

theorem stats_op_convs (s : RedisState) (sid : String) (mc dur : Nat) :
    (add_to_student_stats s sid mc dur).1.convs = s.convs := by
  unfold add_to_student_stats
  split <;> rfl

theorem chatSession_available (s : RedisState) (req : ChatRequest)
    (group_of : String → Option GroupInfo) (um ns now : String) :
    (chatSession s req group_of um ns now).2.available = s.available := by
  unfold chatSession
  split
  · rfl
  · exact create_conversation_available _ _ _ _ _ _ _

theorem chatSession_stats (s : RedisState) (req : ChatRequest)
    (group_of : String → Option GroupInfo) (um ns now : String) :
    (chatSession s req group_of um ns now).2.stats = s.stats := by
  unfold chatSession
  split
  · rfl
  · exact create_conversation_stats _ _ _ _ _ _ _

theorem chatSession_some (s : RedisState) (req : ChatRequest)
    (group_of : String → Option GroupInfo) (um ns now sid : String)
    (h : req.session_id = some sid) :
    chatSession s req group_of um ns now = (sid, s) := by
  unfold chatSession
  rw [h]

theorem get_conversation_congr (s s' : RedisState) (cid : String)
    (h1 : s'.available = s.available) (h2 : s'.convs = s.convs) :
    get_conversation s' cid = get_conversation s cid := by
  unfold get_conversation
  rw [h1, h2]

theorem get_conversation_setAssoc (s : RedisState) (cid : String) (conv : Conversation)
    (hav : s.available = true) :
    get_conversation
      { s with convs := setAssoc s.convs ("conversation:" ++ cid) conv } cid = some conv := by
  simp [get_conversation, hav, lookup_setAssoc_self]

theorem add_message_found (s : RedisState) (cid role content : String) (wc : Nat)
    (now : String) (conv : Conversation) (hav : s.available = true)
    (hc : get_conversation s cid = some conv) :
    (add_message_to_conversation s cid role content wc now).1 =
      { s with convs :=
          setAssoc s.convs ("conversation:" ++ cid) (appendedConv conv role content now wc) } := by
  have hnav : (!s.available) = false := by rw [hav]; rfl
  simp [add_message_to_conversation, appendedConv, hnav, hc]

theorem chat_valid_eq (s : RedisState) (req : ChatRequest) (api_key_ok : Bool)
    (group_of : String → Option GroupInfo) (oracle : Nat → ApiOutcome) (ns now : String)
    (hjson : req.is_json = true) (hne : pyStrip req.message ≠ "")
    (hlen : (pyStrip req.message).length ≤ 2000) (hkey : api_key_ok = true) :
    chat s req api_key_ok group_of oracle ns now =
      chatAfterValidation (chatSession s req group_of (pyStrip req.message) ns now).2
        req oracle (chatSession s req group_of (pyStrip req.message) ns now).1
        (pyStrip req.message) now := by
  have hlen' : ¬ (2000 < (pyStrip req.message).length) := by omega
  simp [chat, hjson, hkey, hne, hlen']

theorem chat_not_json (s : RedisState) (req : ChatRequest) (api_key_ok : Bool)
    (group_of : String → Option GroupInfo) (oracle : Nat → ApiOutcome) (ns now : String)
    (h : req.is_json = false) :
    chat s req api_key_ok group_of oracle ns now =
      (s, { status := 400, reply := none, success := false, session_id := none }) := by
  simp [chat, h]

theorem chat_bad_message (s : RedisState) (req : ChatRequest) (api_key_ok : Bool)
    (group_of : String → Option GroupInfo) (oracle : Nat → ApiOutcome) (ns now : String)
    (hjson : req.is_json = true)
    (h : pyStrip req.message = "" ∨ 2000 < (pyStrip req.message).length) :
    chat s req api_key_ok group_of oracle ns now =
      (s, { status := 400, reply := none, success := false, session_id := none }) := by
  unfold chat
  rw [hjson]
  rcases h with h | h
  · simp [h]
  · simp [h]

theorem chatAfterValidation_exn (s1 : RedisState) (req : ChatRequest)
    (oracle : Nat → ApiOutcome) (sid um now : String)
    (h : (route_llm_call oracle req.llm_type
        (buildChatMessages (get_conversation s1 sid) um)).2 = ApiOutcome.exn) :
    chatAfterValidation s1 req oracle sid um now =
      (s1, { status := 500, reply := none, success := false, session_id := none }) := by
  simp only [chatAfterValidation]
  rw [h]

theorem chatAfterValidation_no_choices (s1 : RedisState) (req : ChatRequest)
    (oracle : Nat → ApiOutcome) (sid um now : String) (resp : ApiResponse)
    (h : (route_llm_call oracle req.llm_type
        (buildChatMessages (get_conversation s1 sid) um)).2 = ApiOutcome.ok resp)
    (hch : resp.choices = []) :
    chatAfterValidation s1 req oracle sid um now =
      (s1, { status := 502, reply := none, success := false, session_id := none }) := by
  simp [chatAfterValidation, h, hch]

theorem chatAfterValidation_empty_reply (s1 : RedisState) (req : ChatRequest)
    (oracle : Nat → ApiOutcome) (sid um now : String) (resp : ApiResponse)
    (c : String) (cs : List String)
    (h : (route_llm_call oracle req.llm_type
        (buildChatMessages (get_conversation s1 sid) um)).2 = ApiOutcome.ok resp)
    (hch : resp.choices = c :: cs) (hr : pyStrip c = "") :
    chatAfterValidation s1 req oracle sid um now =
      (s1, { status := 502, reply := none, success := false, session_id := none }) := by
  simp [chatAfterValidation, h, hch, hr]

theorem chatAfterValidation_success (s1 : RedisState) (req : ChatRequest)
    (oracle : Nat → ApiOutcome) (sid um now : String) (resp : ApiResponse)
    (c : String) (cs : List String)
    (h : (route_llm_call oracle req.llm_type
        (buildChatMessages (get_conversation s1 sid) um)).2 = ApiOutcome.ok resp)
    (hch : resp.choices = c :: cs) (hr : pyStrip c ≠ "") :
    chatAfterValidation s1 req oracle sid um now =
      ((add_to_student_stats
          ((add_message_to_conversation
            ((add_message_to_conversation s1 sid "user" um (pyWordCount um) now).1)
            sid "assistant" (pyStrip c) (pyWordCount (pyStrip c)) now).1)
          req.student_id 2 0).1,
       { status := 200, reply := some (pyStrip c), success := true,
         session_id := some sid }) := by
  simp [chatAfterValidation, h, hch, hr]

theorem route_llm_call_const (oracle : Nat → ApiOutcome) (o : ApiOutcome)
    (h : ∀ i, oracle i = o) (lt : String) (msgs : List ChatMsg) :
    (route_llm_call oracle lt msgs).2 = o := by
  unfold route_llm_call call_srl_llm call_ai_ethics_llm call_srl_and_ethics_llm
    call_original_llm
  split_ifs with hsrl heth hboth
  · by_cases hm : latestUserMessage msgs = "" <;> simp [hm, h]
  · by_cases hm : latestUserMessage msgs = "" <;> simp [hm, h]
  · by_cases hm : latestUserMessage msgs = "" <;> simp [hm, h]
  · simp [h]

theorem statsOf_add (s : RedisState) (sid : String) (mc dur : Nat)
    (hav : s.available = true) :
    statsOf (add_to_student_stats s sid mc dur).1 sid =
      some { total_messages :=
               ((statsOf s sid).getD ⟨0, 0, 0⟩).total_messages + mc,
             total_duration :=
               ((statsOf s sid).getD ⟨0, 0, 0⟩).total_duration + dur,
             total_conversations :=
               ((statsOf s sid).getD ⟨0, 0, 0⟩).total_conversations + 1 } := by
  have hnav : (!s.available) = false := by rw [hav]; rfl
  unfold add_to_student_stats statsOf
  rw [hnav]
  rcases hl : List.lookup ("stats:" ++ sid) s.stats with _ | st <;>
    simp [hl, lookup_setAssoc_self]

/-! ### Claim C6 -/

/-- C6: the `/chat` route answers 400 when the request is not JSON or the
stripped message is empty or longer than 2000 characters; for a valid
request with the API key configured it answers 500 when the LLM dispatch
raises, 502 when the response lacks a non-empty `choices` list or the
stripped reply is empty, and otherwise 200 with `reply`, `success = true`
and `session_id` in the body. -/
theorem chat_status_mapping (s : RedisState) (req : ChatRequest) (api_key_ok : Bool)
    (group_of : String → Option GroupInfo) (oracle : Nat → ApiOutcome) (ns now : String) :
    (req.is_json = false →
      (chat s req api_key_ok group_of oracle ns now).2 =
        { status := 400, reply := none, success := false, session_id := none })
    ∧ (req.is_json = true →
        (pyStrip req.message = "" ∨ 2000 < (pyStrip req.message).length) →
        (chat s req api_key_ok group_of oracle ns now).2 =
          { status := 400, reply := none, success := false, session_id := none })
    ∧ (req.is_json = true → pyStrip req.message ≠ "" →
        (pyStrip req.message).length ≤ 2000 → api_key_ok = true →
        (chatRouteOutcome s req group_of oracle ns now = ApiOutcome.exn →
          (chat s req api_key_ok group_of oracle ns now).2 =
            { status := 500, reply := none, success := false, session_id := none })
        ∧ (∀ resp : ApiResponse,
            chatRouteOutcome s req group_of oracle ns now = ApiOutcome.ok resp →
            (resp.choices = [] →
              (chat s req api_key_ok group_of oracle ns now).2 =
                { status := 502, reply := none, success := false, session_id := none })
            ∧ (∀ (c : String) (cs : List String), resp.choices = c :: cs →
                pyStrip c = "" →
                (chat s req api_key_ok group_of oracle ns now).2 =
                  { status := 502, reply := none, success := false, session_id := none })
            ∧ (∀ (c : String) (cs : List String), resp.choices = c :: cs →
                pyStrip c ≠ "" →
                (chat s req api_key_ok group_of oracle ns now).2 =
                  { status := 200, reply := some (pyStrip c), success := true,
                    session_id :=
                      some (chatSession s req group_of (pyStrip req.message) ns now).1 }))) := by
  refine ⟨?_, ?_, ?_⟩
  · intro h
    rw [chat_not_json s req api_key_ok group_of oracle ns now h]
  · intro hjson h
    rw [chat_bad_message s req api_key_ok group_of oracle ns now hjson h]
  · intro hjson hne hlen hkey
    have heq := chat_valid_eq s req api_key_ok group_of oracle ns now hjson hne hlen hkey
    constructor
    · intro hexn
      rw [heq, chatAfterValidation_exn _ _ _ _ _ _ hexn]
    · intro resp hok
      refine ⟨?_, ?_, ?_⟩
      · intro hch
        rw [heq, chatAfterValidation_no_choices _ _ _ _ _ _ resp hok hch]
      · intro c cs hch hr
        rw [heq, chatAfterValidation_empty_reply _ _ _ _ _ _ resp c cs hok hch hr]
      · intro c cs hch hr
        rw [heq, chatAfterValidation_success _ _ _ _ _ _ resp c cs hok hch hr]

/-- Witness for C6: a non-JSON request gets a 400 body; a valid request
whose dispatch raises gets a 500. -/
theorem chat_status_mapping_witness :
    (chat onState { reqW with is_json := false } true (fun _ => none)
      (fun _ => ApiOutcome.exn) "ns" "t").2 =
      { status := 400, reply := none, success := false, session_id := none }
    ∧ (chat onState reqW true (fun _ => none) (fun _ => ApiOutcome.exn) "ns" "t").2 =
      { status := 500, reply := none, success := false, session_id := none } := by
  constructor
  · exact (chat_status_mapping onState { reqW with is_json := false } true (fun _ => none)
      (fun _ => ApiOutcome.exn) "ns" "t").1 rfl
  · exact ((chat_status_mapping onState reqW true (fun _ => none)
      (fun _ => ApiOutcome.exn) "ns" "t").2.2 rfl (by decide) (by decide) rfl).1 (by decide)

/-! ### Claim C7 -/

/-- C7: on a successful `/chat` request against an existing conversation,
exactly the user message then the assistant reply are appended, each with
role, content, timestamp and word count, and after every
`add_message_to_conversation` the stored `message_count` equals the length
of the stored message list. -/
theorem chat_appends_two_messages (s : RedisState) (req : ChatRequest)
    (group_of : String → Option GroupInfo) (oracle : Nat → ApiOutcome)
    (ns now sid : String) (conv : Conversation) (resp : ApiResponse)
    (c : String) (cs : List String)
    (hav : s.available = true) (hsid : req.session_id = some sid)
    (hconv : get_conversation s sid = some conv)
    (hjson : req.is_json = true) (hne : pyStrip req.message ≠ "")
    (hlen : (pyStrip req.message).length ≤ 2000)
    (hroute : (route_llm_call oracle req.llm_type
        (buildChatMessages (some conv) (pyStrip req.message))).2 = ApiOutcome.ok resp)
    (hch : resp.choices = c :: cs) (hr : pyStrip c ≠ "") :
    get_conversation (chat s req true group_of oracle ns now).1 sid =
      some (appendedConv
        (appendedConv conv "user" (pyStrip req.message) now
          (pyWordCount (pyStrip req.message)))
        "assistant" (pyStrip c) now (pyWordCount (pyStrip c)))
    ∧ (appendedConv
        (appendedConv conv "user" (pyStrip req.message) now
          (pyWordCount (pyStrip req.message)))
        "assistant" (pyStrip c) now (pyWordCount (pyStrip c))).messages =
      conv.messages ++
        [{ role := "user", content := pyStrip req.message, timestamp := now,
           word_count := pyWordCount (pyStrip req.message) },
         { role := "assistant", content := pyStrip c, timestamp := now,
           word_count := pyWordCount (pyStrip c) }]
    ∧ (chat s req true group_of oracle ns now).2.status = 200
    ∧ (∀ (s' : RedisState) (cid role content : String) (wc : Nat) (now' : String)
        (conv0 conv1 : Conversation), s'.available = true →
        get_conversation s' cid = some conv0 →
        get_conversation (add_message_to_conversation s' cid role content wc now').1 cid
          = some conv1 →
        conv1.message_count = conv1.messages.length
        ∧ conv1.messages = conv0.messages ++
            [{ role := role, content := content, timestamp := now',
               word_count := wc }]) := by
  have heq : chat s req true group_of oracle ns now =
      chatAfterValidation s req oracle sid (pyStrip req.message) now := by
    rw [chat_valid_eq s req true group_of oracle ns now hjson hne hlen rfl,
      chatSession_some s req group_of (pyStrip req.message) ns now sid hsid]
  have hroute' : (route_llm_call oracle req.llm_type
      (buildChatMessages (get_conversation s sid) (pyStrip req.message))).2
      = ApiOutcome.ok resp := by
    rw [hconv]
    exact hroute
  have hsucc := chatAfterValidation_success s req oracle sid (pyStrip req.message) now
    resp c cs hroute' hch hr
  have h2 := add_message_found s sid "user" (pyStrip req.message)
    (pyWordCount (pyStrip req.message)) now conv hav hconv
  have h2av : ((add_message_to_conversation s sid "user" (pyStrip req.message)
      (pyWordCount (pyStrip req.message)) now).1).available = true := by
    rw [add_message_available]
    exact hav
  have h2get : get_conversation
      ((add_message_to_conversation s sid "user" (pyStrip req.message)
        (pyWordCount (pyStrip req.message)) now).1) sid =
      some (appendedConv conv "user" (pyStrip req.message) now
        (pyWordCount (pyStrip req.message))) := by
    rw [h2]
    exact get_conversation_setAssoc s sid _ hav
  have h3 := add_message_found _ sid "assistant" (pyStrip c) (pyWordCount (pyStrip c)) now
    _ h2av h2get
  have h3get : get_conversation
      ((add_message_to_conversation
        ((add_message_to_conversation s sid "user" (pyStrip req.message)
          (pyWordCount (pyStrip req.message)) now).1)
        sid "assistant" (pyStrip c) (pyWordCount (pyStrip c)) now).1) sid =
      some (appendedConv
        (appendedConv conv "user" (pyStrip req.message) now
          (pyWordCount (pyStrip req.message)))
        "assistant" (pyStrip c) now (pyWordCount (pyStrip c))) := by
    rw [h3]
    exact get_conversation_setAssoc _ sid _ h2av
  refine ⟨?_, ?_, ?_, ?_⟩
  · rw [heq, hsucc]
    rw [get_conversation_congr _ _ sid (stats_op_available _ _ _ _) (stats_op_convs _ _ _ _)]
    exact h3get
  · simp [appendedConv]
  · rw [heq, hsucc]
  · intro s' cid role content wc now' conv0 conv1 hav' hc0 hc1
    rw [add_message_found s' cid role content wc now' conv0 hav' hc0,
      get_conversation_setAssoc s' cid _ hav'] at hc1
    injection hc1 with hc1
    subst hc1
    exact ⟨by simp [appendedConv], by simp [appendedConv]⟩

/-- Witness for C7: a successful exchange on the sample store appends the
user and assistant messages to conversation `c1`. -/
theorem chat_appends_two_messages_witness :
    get_conversation (chat sampleState { reqW with session_id := some "c1" } true
        (fun _ => none) (fun _ => ApiOutcome.ok { choices := ["r"] }) "ns" "t").1 "c1" =
      some (appendedConv
        (appendedConv sampleConv "user" "hi" "t" 1) "assistant" "r" "t" 1)
    ∧ (chat sampleState { reqW with session_id := some "c1" } true
        (fun _ => none) (fun _ => ApiOutcome.ok { choices := ["r"] }) "ns" "t").2.status
      = 200 := by
  have h := chat_appends_two_messages sampleState { reqW with session_id := some "c1" }
    (fun _ => none) (fun _ => ApiOutcome.ok { choices := ["r"] }) "ns" "t" "c1"
    sampleConv { choices := ["r"] } "r" [] rfl rfl (by decide) rfl (by decide) (by decide)
    (by decide) rfl (by decide)
  exact ⟨h.1, h.2.2.1⟩

/-! ### Claim C8 -/

theorem chatSession_unavailable (s : RedisState) (req : ChatRequest)
    (group_of : String → Option GroupInfo) (um ns now : String)
    (hav : s.available = false) :
    (chatSession s req group_of um ns now).2 = s := by
  unfold chatSession
  split
  · rfl
  · simp [create_conversation, hav]

/-- C8: with the Redis client unavailable every write reports `True`
without touching the store, every read reports nothing, and a valid
`/chat` request still answers 200 with `success = true` while leaving the
store untouched — the transcript is silently not persisted. -/
theorem redis_unavailable_behavior (s : RedisState) (req : ChatRequest)
    (group_of : String → Option GroupInfo) (oracle : Nat → ApiOutcome)
    (student_id payload conv_id role content lt title now ns : String)
    (g : Option GroupInfo) (wc mc dur : Nat)
    (resp : ApiResponse) (c : String) (cs : List String)
    (hav : s.available = false)
    (hjson : req.is_json = true) (hne : pyStrip req.message ≠ "")
    (hlen : (pyStrip req.message).length ≤ 2000)
    (hroute : (route_llm_call oracle req.llm_type
        (buildChatMessages none (pyStrip req.message))).2 = ApiOutcome.ok resp)
    (hch : resp.choices = c :: cs) (hr : pyStrip c ≠ "") :
    save_student s student_id payload = (s, [], true)
    ∧ create_conversation s conv_id student_id g lt title now = (s, [], true)
    ∧ add_message_to_conversation s conv_id role content wc now = (s, [], true)
    ∧ add_to_student_stats s student_id mc dur = (s, [], true)
    ∧ get_student s student_id = none
    ∧ get_conversation s conv_id = none
    ∧ get_all_conversations s = []
    ∧ (chat s req true group_of oracle ns now).1 = s
    ∧ (chat s req true group_of oracle ns now).2.status = 200
    ∧ (chat s req true group_of oracle ns now).2.success = true := by
  have hmsg : ∀ cid rl ct w nw, add_message_to_conversation s cid rl ct w nw
      = (s, [], true) := by
    intro cid rl ct w nw
    simp [add_message_to_conversation, hav]
  have hstats : ∀ sid' m d, add_to_student_stats s sid' m d = (s, [], true) := by
    intro sid' m d
    simp [add_to_student_stats, hav]
  have hs1 : (chatSession s req group_of (pyStrip req.message) ns now).2 = s :=
    chatSession_unavailable s req group_of (pyStrip req.message) ns now hav
  have hgc : get_conversation (chatSession s req group_of (pyStrip req.message) ns now).2
      (chatSession s req group_of (pyStrip req.message) ns now).1 = none := by
    rw [hs1]
    simp [get_conversation, hav]
  have hroute' : (route_llm_call oracle req.llm_type
      (buildChatMessages
        (get_conversation (chatSession s req group_of (pyStrip req.message) ns now).2
          (chatSession s req group_of (pyStrip req.message) ns now).1)
        (pyStrip req.message))).2 = ApiOutcome.ok resp := by
    rw [hgc]
    exact hroute
  have hchat := (chat_valid_eq s req true group_of oracle ns now hjson hne hlen rfl).trans
    (chatAfterValidation_success _ req oracle _ (pyStrip req.message) now resp c cs
      hroute' hch hr)
  refine ⟨by simp [save_student, hav], by simp [create_conversation, hav],
    hmsg conv_id role content wc now, hstats student_id mc dur,
    by simp [get_student, hav], by simp [get_conversation, hav],
    by simp [get_all_conversations, hav], ?_, ?_, ?_⟩
  · rw [hchat]
    simp [hs1, hmsg, hstats]
  · rw [hchat]
  · rw [hchat]

/-- Witness for C8: against an unavailable store, `/chat` still reports
success and the store is unchanged. -/
theorem redis_unavailable_behavior_witness :
    (chat offState reqW true (fun _ => none)
      (fun _ => ApiOutcome.ok { choices := ["r"] }) "ns" "t").1 = offState
    ∧ (chat offState reqW true (fun _ => none)
      (fun _ => ApiOutcome.ok { choices := ["r"] }) "ns" "t").2.status = 200
    ∧ (chat offState reqW true (fun _ => none)
      (fun _ => ApiOutcome.ok { choices := ["r"] }) "ns" "t").2.success = true := by
  have h := redis_unavailable_behavior offState reqW (fun _ => none)
    (fun _ => ApiOutcome.ok { choices := ["r"] }) "s1" "p" "c1" "user" "hi" "original"
    "t" "t" "ns" none 1 2 0 { choices := ["r"] } "r" [] rfl rfl (by decide) (by decide)
    (by decide) rfl (by decide)
  exact ⟨h.2.2.2.2.2.2.2.1, h.2.2.2.2.2.2.2.2.1, h.2.2.2.2.2.2.2.2.2⟩

/-! ### Claim C9 -/

theorem statsOf_congr (s s' : RedisState) (sid : String) (h : s'.stats = s.stats) :
    statsOf s' sid = statsOf s sid := by
  unfold statsOf
  rw [h]

theorem success_state_stats (s1 : RedisState) (student sid um reply now : String)
    (wcu wca : Nat) (hav : s1.available = true) :
    statsOf (add_to_student_stats
        ((add_message_to_conversation
          ((add_message_to_conversation s1 sid "user" um wcu now).1)
          sid "assistant" reply wca now).1) student 2 0).1 student =
      some { total_messages := ((statsOf s1 student).getD ⟨0, 0, 0⟩).total_messages + 2,
             total_duration := ((statsOf s1 student).getD ⟨0, 0, 0⟩).total_duration,
             total_conversations :=
               ((statsOf s1 student).getD ⟨0, 0, 0⟩).total_conversations + 1 }
    ∧ (add_to_student_stats
        ((add_message_to_conversation
          ((add_message_to_conversation s1 sid "user" um wcu now).1)
          sid "assistant" reply wca now).1) student 2 0).1.available = true := by
  have h2av : ((add_message_to_conversation s1 sid "user" um wcu now).1).available
      = true := by
    rw [add_message_available]
    exact hav
  have h3av : ((add_message_to_conversation
      ((add_message_to_conversation s1 sid "user" um wcu now).1)
      sid "assistant" reply wca now).1).available = true := by
    rw [add_message_available]
    exact h2av
  have h3st : ((add_message_to_conversation
      ((add_message_to_conversation s1 sid "user" um wcu now).1)
      sid "assistant" reply wca now).1).stats = s1.stats := by
    rw [add_message_stats, add_message_stats]
  constructor
  · rw [statsOf_add _ student 2 0 h3av, statsOf_congr s1 _ student h3st]
    simp
  · rw [stats_op_available]
    exact h3av

theorem chat_success_stats (s : RedisState) (req : ChatRequest)
    (group_of : String → Option GroupInfo) (oracle : Nat → ApiOutcome)
    (ns now : String) (resp : ApiResponse) (c : String) (cs : List String)
    (hav : s.available = true) (hjson : req.is_json = true)
    (hne : pyStrip req.message ≠ "") (hlen : (pyStrip req.message).length ≤ 2000)
    (hconst : ∀ i, oracle i = ApiOutcome.ok resp)
    (hch : resp.choices = c :: cs) (hr : pyStrip c ≠ "") :
    statsOf (chat s req true group_of oracle ns now).1 req.student_id =
      some { total_messages :=
               ((statsOf s req.student_id).getD ⟨0, 0, 0⟩).total_messages + 2,
             total_duration :=
               ((statsOf s req.student_id).getD ⟨0, 0, 0⟩).total_duration,
             total_conversations :=
               ((statsOf s req.student_id).getD ⟨0, 0, 0⟩).total_conversations + 1 }
    ∧ (chat s req true group_of oracle ns now).1.available = true := by
  have hroute := route_llm_call_const oracle (ApiOutcome.ok resp) hconst req.llm_type
    (buildChatMessages
      (get_conversation (chatSession s req group_of (pyStrip req.message) ns now).2
        (chatSession s req group_of (pyStrip req.message) ns now).1)
      (pyStrip req.message))
  have hchat := (chat_valid_eq s req true group_of oracle ns now hjson hne hlen rfl).trans
    (chatAfterValidation_success _ req oracle _ (pyStrip req.message) now resp c cs
      hroute hch hr)
  have h1av : (chatSession s req group_of (pyStrip req.message) ns now).2.available
      = true := by
    rw [chatSession_available]
    exact hav
  obtain ⟨ha, hb⟩ := success_state_stats
    (chatSession s req group_of (pyStrip req.message) ns now).2 req.student_id
    (chatSession s req group_of (pyStrip req.message) ns now).1
    (pyStrip req.message) (pyStrip c) now (pyWordCount (pyStrip req.message))
    (pyWordCount (pyStrip c)) h1av
  rw [hchat]
  refine ⟨?_, hb⟩
  rw [ha, statsOf_congr s _ req.student_id
    (chatSession_stats s req group_of (pyStrip req.message) ns now)]

/-- C9: `add_to_student_stats` bumps `total_conversations` by exactly one
on every invocation regardless of its arguments (and adds `messages_count`
to `total_messages`), and since `/chat` invokes it once per successful
exchange with `messages_count = 2`, after `n` successful exchanges by a
student with no prior stats the stored counters read `total_messages =
2 n` and `total_conversations = n` — the number of exchanges, not of
distinct conversations. -/
theorem stats_accumulation (s : RedisState) (req : ChatRequest)
    (group_of : String → Option GroupInfo) (oracle : Nat → ApiOutcome)
    (ns now : String) (resp : ApiResponse) (c : String) (cs : List String)
    (hav : s.available = true) (hjson : req.is_json = true)
    (hne : pyStrip req.message ≠ "") (hlen : (pyStrip req.message).length ≤ 2000)
    (hconst : ∀ i, oracle i = ApiOutcome.ok resp)
    (hch : resp.choices = c :: cs) (hr : pyStrip c ≠ "")
    (hstats : statsOf s req.student_id = none) :
    (∀ (s' : RedisState) (sid : String) (mc dur : Nat), s'.available = true →
      statsOf (add_to_student_stats s' sid mc dur).1 sid =
        some { total_messages := ((statsOf s' sid).getD ⟨0, 0, 0⟩).total_messages + mc,
               total_duration := ((statsOf s' sid).getD ⟨0, 0, 0⟩).total_duration + dur,
               total_conversations :=
                 ((statsOf s' sid).getD ⟨0, 0, 0⟩).total_conversations + 1 })
    ∧ (∀ n, statsOf (chatN s req group_of oracle ns now n) req.student_id =
        if n = 0 then none
        else some { total_messages := 2 * n, total_duration := 0,
                    total_conversations := n }) := by
  refine ⟨fun s' sid mc dur hav' => statsOf_add s' sid mc dur hav', ?_⟩
  have key : ∀ n, (statsOf (chatN s req group_of oracle ns now n) req.student_id =
      if n = 0 then none
      else some { total_messages := 2 * n, total_duration := 0,
                  total_conversations := n })
      ∧ (chatN s req group_of oracle ns now n).available = true := by
    intro n
    induction n with
    | zero => exact ⟨by simpa using hstats, hav⟩
    | succ n ih =>
      obtain ⟨ihst, ihav⟩ := ih
      have hstep := chat_success_stats (chatN s req group_of oracle ns now n) req group_of
        oracle ns now resp c cs ihav hjson hne hlen hconst hch hr
      have hunf : chatN s req group_of oracle ns now (n + 1) =
          (chat (chatN s req group_of oracle ns now n) req true group_of oracle ns now).1 :=
        rfl
      refine ⟨?_, by rw [hunf]; exact hstep.2⟩
      rw [hunf, hstep.1, ihst]
      rcases Nat.eq_zero_or_pos n with h0 | hpos
      · subst h0
        simp
      · have hn : n ≠ 0 := by omega
        simp [hn, Nat.mul_succ]
  exact fun n => (key n).1

/-- Witness for C9: two successful exchanges on an empty store leave
`total_messages = 4`, `total_conversations = 2`. -/
theorem stats_accumulation_witness :
    statsOf (chatN onState reqW (fun _ => none)
        (fun _ => ApiOutcome.ok { choices := ["r"] }) "ns" "t" 2) "s1" =
      some { total_messages := 4, total_duration := 0, total_conversations := 2 } := by
  have h := (stats_accumulation onState reqW (fun _ => none)
    (fun _ => ApiOutcome.ok { choices := ["r"] }) "ns" "t" { choices := ["r"] } "r" []
    rfl rfl (by decide) (by decide) (fun i => rfl) rfl (by decide) rfl).2 2
  simpa [reqW] using h

/-! ### Claim C10 -/

/-- C10: in both `/chat` and `/chat/stream` the history sent to the LLM is
built from at most the last 20 stored messages (messages before the last 20
never enter the list), and the current user message is appended exactly
when that window is empty or its last element's role is not `user`. -/
theorem history_window_twenty (conv : Conversation) (um : String) :
    ((lastN conv.messages 20).map (fun m => ChatMsg.mk m.role m.content)).length ≤ 20
    ∧ (buildChatMessages (some conv) um =
        (lastN conv.messages 20).map (fun m => ChatMsg.mk m.role m.content)
      ∨ buildChatMessages (some conv) um =
        (lastN conv.messages 20).map (fun m => ChatMsg.mk m.role m.content)
          ++ [ChatMsg.mk "user" um])
    ∧ (buildChatMessages (some conv) um =
        (lastN conv.messages 20).map (fun m => ChatMsg.mk m.role m.content) ↔
        ∃ m, ((lastN conv.messages 20).map
            (fun m => ChatMsg.mk m.role m.content)).getLast? = some m
          ∧ m.role = "user")
    ∧ buildChatMessages none um = [ChatMsg.mk "user" um]
    ∧ streamBuildMessages (some conv) um = buildChatMessages (some conv) um
    ∧ streamBuildMessages none um = buildChatMessages none um := by
  have hlen : ((lastN conv.messages 20).map
      (fun m => ChatMsg.mk m.role m.content)).length ≤ 20 := by
    simp [lastN]
    omega
  have happ : ∀ l : List ChatMsg, ∀ x : ChatMsg, l ++ [x] ≠ l := by
    intro l x h
    have := congrArg List.length h
    simp at this
  refine ⟨hlen, ?_, ?_, rfl, rfl, rfl⟩
  · unfold buildChatMessages
    rcases hL : ((lastN conv.messages 20).map
        (fun m => ChatMsg.mk m.role m.content)).getLast? with _ | m
    · simp [hL]
    · by_cases hrole : m.role = "user"
      · simp [hL, hrole]
      · have hb : (m.role != "user") = true := by simpa using hrole
        simp [hL, hb]
  · unfold buildChatMessages
    rcases hL : ((lastN conv.messages 20).map
        (fun m => ChatMsg.mk m.role m.content)).getLast? with _ | m
    · simp only [hL]
      constructor
      · intro h
        exact absurd h (happ _ _)
      · rintro ⟨m, hm, _⟩
        exact absurd hm (by simp)
    · by_cases hrole : m.role = "user"
      · simp only [hL, hrole]
        constructor
        · intro _
          exact ⟨m, rfl, hrole⟩
        · intro _
          simp
      · have hb : (m.role != "user") = true := by simpa using hrole
        simp only [hL, hb, if_true]
        constructor
        · intro h
          exact absurd h (happ _ _)
        · rintro ⟨m', hm', hrole'⟩
          injection hm' with hm'
          exact absurd (hm' ▸ hrole') hrole

end Socrates
